import Mathlib

/-!
Shallow embedding of `src/src/App.tsx` (a React three-fiber proof of concept:
upload a 2D image, preview it mapped onto a selectable 3D object, with a
light/dark theme toggle).

Encoding conventions:
* The TypeScript union `ObjectType` becomes an inductive type.
* A texture source (an object URL produced by `URL.createObjectURL`) is a
  natural number handle; `URL.createObjectURL` freshness is modelled by a
  counter `nextUrl` in the application state.
* `useTexture` resolves a URL into a texture handle; the handle is identified
  with the URL reference it was loaded from (the identity function), which is
  all the claims need: handle identity across uploads.
* Color literals of the source (the strings white, #e2e8f0, #222222, #ffffff)
  become the four constructors of `Color`; distinct literals map to distinct
  constructors.
* A `meshStandardMaterial` JSX element is a `Material`: `mapAttr` is `some v`
  when the element passes a `map` attribute with value `v` (`v` itself is an
  `Option Texture`, since the passed texture may be null), and `none` when no
  `map` attribute appears; `colorAttr` likewise records an optional `color`
  attribute.
* Media types (`file.type`) are lists of characters; the regex match against
  the image pattern (i m a g e . *) succeeds exactly when the five characters
  i, m, a, g, e occur consecutively in the media type.
* React reconciliation of `<Scene key={textureUrl} .../>` is modelled by
  `reconcileScene`: the mounted scene keeps its instance identity while the
  key is unchanged and is remounted with a fresh instance id when the key
  changes.
-/

namespace POC

/-- The source union type of line 8: box | sphere | cylinder | mug | shirt. -/
inductive ObjectType
  | box
  | sphere
  | cylinder
  | mug
  | shirt
  deriving DecidableEq, Repr

/-- A texture handle, identified with the object-URL reference it came from. -/
abbrev Texture := Nat

/-- The color literals appearing in App.tsx: white, #e2e8f0, #222222, #ffffff. -/
inductive Color
  | white
  | hexE2E8F0
  | hex222222
  | hexFFFFFF
  deriving DecidableEq, Repr

/-- Spec-side vocabulary: whether a color literal denotes a light tone
(white, #e2e8f0 and #ffffff are light; #222222 is dark). -/
def Color.isLightTone : Color → Bool
  | .white => true
  | .hexE2E8F0 => true
  | .hex222222 => false
  | .hexFFFFFF => true

/-- One `meshStandardMaterial` element: `mapAttr = some v` when the JSX passes
`map={v}` (where `v` may itself be null, i.e. `none`), `mapAttr = none` when no
`map` attribute appears; `colorAttr` records the optional `color` attribute. -/
structure Material where
  mapAttr : Option (Option Texture)
  colorAttr : Option Color
  deriving DecidableEq, Repr

/-- The texture actually bound by a material: the value of its `map` attribute
when present and non-null. -/
def boundTexture (m : Material) : Option Texture :=
  m.mapAttr.bind id

/-- The `Box` presenter (lines 170-203): a cube whose six material slots are,
in source order, material-0 Back, material-1 Left, material-2 Right,
material-3 Bottom, material-4 Front Face (with Image), material-5 Top.  The
five flat faces pass `color={darkMode ? white : #e2e8f0}` and no `map`; the
front face passes `map={texture}` and no `color`. -/
def Box (texture : Option Texture) (darkMode : Bool) : List Material :=
  [ ⟨none, some (if darkMode then .white else .hexE2E8F0)⟩
  , ⟨none, some (if darkMode then .white else .hexE2E8F0)⟩
  , ⟨none, some (if darkMode then .white else .hexE2E8F0)⟩
  , ⟨none, some (if darkMode then .white else .hexE2E8F0)⟩
  , ⟨some texture, none⟩
  , ⟨none, some (if darkMode then .white else .hexE2E8F0)⟩ ]

/-- The `Cylinder` presenter (lines 205-223): material-0 Side Wall with Image
(`map={texture}`, no color), material-1 Top and material-2 Bottom flat
(`color={darkMode ? white : #e2e8f0}`, no map). -/
def Cylinder (texture : Option Texture) (darkMode : Bool) : List Material :=
  [ ⟨some texture, none⟩
  , ⟨none, some (if darkMode then .white else .hexE2E8F0)⟩
  , ⟨none, some (if darkMode then .white else .hexE2E8F0)⟩ ]

/-- The `Mug` presenter (lines 225-245): a single mesh whose material passes
both `map={texture}` and `color={darkMode ? white : #e2e8f0}` (the texture is
blended over the theme-tinted base). -/
def Mug (texture : Option Texture) (darkMode : Bool) : List Material :=
  [ ⟨some texture, some (if darkMode then .white else .hexE2E8F0)⟩ ]

/-- The `Shirt` presenter (lines 247-289): four sub-meshes in source order.
The first (the front panel, node FRONT_2657_0) passes `map={texture}` and no
color; the remaining three pass `color={darkMode ? #222222 : #ffffff}` and no
map. -/
def Shirt (texture : Option Texture) (darkMode : Bool) : List Material :=
  [ ⟨some texture, none⟩
  , ⟨none, some (if darkMode then .hex222222 else .hexFFFFFF)⟩
  , ⟨none, some (if darkMode then .hex222222 else .hexFFFFFF)⟩
  , ⟨none, some (if darkMode then .hex222222 else .hexFFFFFF)⟩ ]

/-- `useTexture` of drei resolves an object URL into a texture; the handle is
identified with the URL reference it was loaded from. -/
def useTexture (url : Nat) : Texture := url

/-- A presenter element rendered by `Scene`: which presenter component it is
together with its material list. -/
structure SceneNode where
  kind : ObjectType
  materials : List Material
  deriving DecidableEq, Repr

/-- The `Scene` component (lines 143-169): loads the texture when a URL is
present (`textureUrl ? useTexture(textureUrl) : null`), then renders one
conditional fragment per object kind; the sphere value of the union has no
branch. -/
def Scene (textureUrl : Option Nat) (selectedObject : ObjectType)
    (darkMode : Bool) : List SceneNode :=
  let texture : Option Texture := textureUrl.map useTexture
  (if selectedObject = ObjectType.box then
    [⟨ObjectType.box, Box texture darkMode⟩] else []) ++
  (if selectedObject = ObjectType.cylinder then
    [⟨ObjectType.cylinder, Cylinder texture darkMode⟩] else []) ++
  (if selectedObject = ObjectType.mug then
    [⟨ObjectType.mug, Mug texture darkMode⟩] else []) ++
  (if selectedObject = ObjectType.shirt then
    [⟨ObjectType.shirt, Shirt texture darkMode⟩] else [])

/-- All texture handles referenced by a rendered scene. -/
def texturesOf (ns : List SceneNode) : List Texture :=
  (ns.map fun n => n.materials.filterMap boundTexture).flatten

/-- A file from the file input: only its media type matters to the handler. -/
structure JsFile where
  mediaType : List Char
  deriving DecidableEq, Repr

/-- Whether `pat` is an initial segment of `s`. -/
def seqStarts : List Char → List Char → Bool
  | [], _ => true
  | _ :: _, [] => false
  | c :: cs, d :: ds => c == d && seqStarts cs ds

/-- Whether `pat` occurs consecutively somewhere in `s`. -/
def seqOccurs (pat : List Char) : List Char → Bool
  | [] => seqStarts pat []
  | d :: ds => seqStarts pat (d :: ds) || seqOccurs pat ds

/-- The characters of the image regex literal (before its dot-star tail). -/
def imagePat : List Char := ['i', 'm', 'a', 'g', 'e']

/-- `file.type.match(imagePat..)` is truthy exactly when the pattern occurs in
the media type (the dot-star tail matches anything). -/
def matchesImage (mediaType : List Char) : Bool :=
  seqOccurs imagePat mediaType

/-- The application state: the three `useState` values of `App` (lines 23-28),
a freshness counter for `URL.createObjectURL`, and the identity of the
currently mounted `<Scene key={textureUrl}>` element (its key, its instance
id, and a freshness counter for instance ids). -/
structure AppState where
  textureUrl : Option Nat
  selectedObject : ObjectType
  darkMode : Bool
  nextUrl : Nat
  sceneKey : Option Nat
  sceneInstance : Nat
  nextInstance : Nat
  deriving DecidableEq, Repr

/-- The initial state: no texture, box selected, theme seeded from the
environment's preferred color scheme; the scene is mounted once with key null. -/
def initState (prefersDark : Bool) : AppState :=
  { textureUrl := none
  , selectedObject := ObjectType.box
  , darkMode := prefersDark
  , nextUrl := 0
  , sceneKey := none
  , sceneInstance := 0
  , nextInstance := 1 }

/-- `handleFileChange` (lines 31-39): take the first selected file, and when it
exists and its media type matches the image pattern, create a fresh object URL
and store it; otherwise return with the state untouched. -/
def handleFileChange (s : AppState) (files : Option (List JsFile)) : AppState :=
  match (files.bind List.head?) with
  | some file =>
      if matchesImage file.mediaType then
        { s with textureUrl := some s.nextUrl, nextUrl := s.nextUrl + 1 }
      else s
  | none => s

/-- `handleObjectChange` (lines 42-46): store the selected value. -/
def handleObjectChange (s : AppState) (value : ObjectType) : AppState :=
  { s with selectedObject := value }

/-- `toggleDarkMode` (lines 49-51): flip the flag. -/
def toggleDarkMode (s : AppState) : AppState :=
  { s with darkMode := !s.darkMode }

/-- The UI events the app handles. -/
inductive Event
  | fileChange (files : Option (List JsFile))
  | objectChange (value : ObjectType)
  | toggleDark
  deriving DecidableEq, Repr

/-- Dispatch an event to its handler. -/
def applyEvent (s : AppState) : Event → AppState
  | .fileChange files => handleFileChange s files
  | .objectChange v => handleObjectChange s v
  | .toggleDark => toggleDarkMode s

/-- React reconciliation of `<Scene key={textureUrl} .../>` (line 128): while
the key is unchanged the mounted element keeps its instance; when the key
changes the element is unmounted and remounted with a fresh instance id. -/
def reconcileScene (s : AppState) : AppState :=
  if s.sceneKey = s.textureUrl then s
  else
    { s with
        sceneKey := s.textureUrl,
        sceneInstance := s.nextInstance,
        nextInstance := s.nextInstance + 1 }

/-- One step of the application: handle the event, then re-render (which
reconciles the keyed scene element). -/
def step (s : AppState) (e : Event) : AppState :=
  reconcileScene (applyEvent s e)

/-- What the mounted scene shows in a state: `Scene` applied to the current
texture URL, selected object and theme flag. -/
def render (s : AppState) : List SceneNode :=
  Scene s.textureUrl s.selectedObject s.darkMode

/-- The object selector's options (lines 78-81): box, cylinder, mug, shirt.
The select control emits no other value. -/
def selectOptions : List ObjectType :=
  [ObjectType.box, ObjectType.cylinder, ObjectType.mug, ObjectType.shirt]

/-- The events the UI can actually produce: any file list from the picker, any
theme toggle, but only object values offered by the select control. -/
inductive ValidEvent : Event → Prop
  | fileChange (files : Option (List JsFile)) : ValidEvent (.fileChange files)
  | objectChange (v : ObjectType) (hv : v ∈ selectOptions) :
      ValidEvent (.objectChange v)
  | toggleDark : ValidEvent .toggleDark

/-- The states the running application can reach. -/
inductive Reachable : AppState → Prop
  | init (prefersDark : Bool) : Reachable (initState prefersDark)
  | step (s : AppState) (e : Event) (hs : Reachable s) (he : ValidEvent e) :
      Reachable (step s e)

/-- States reachable from a given state by further valid events. -/
inductive ReachFrom (s : AppState) : AppState → Prop
  | refl : ReachFrom s s
  | step (t : AppState) (e : Event) (ht : ReachFrom s t) (he : ValidEvent e) :
      ReachFrom s (step t e)

/-- The colors of the flat-designated regions of a material list: the regions
whose JSX passes no `map` attribute, in order, each with its (optional)
`color` attribute. -/
def flatColors (ms : List Material) : List (Option Color) :=
  (ms.filter fun m => m.mapAttr.isNone).map Material.colorAttr

/-- Pointwise comparison of two equally long flat-color lists: every position
carries an explicit color on both sides and the two colors differ. -/
def allToneChanged : List (Option Color) → List (Option Color) → Bool
  | [], [] => true
  | a :: as, b :: bs =>
      a.isSome && b.isSome && decide (a ≠ b) && allToneChanged as bs
  | _, _ => false

/-- The structural invariant of reachable states: the current texture URL (if
any) was created by the URL counter, the mounted scene's key tracks the
texture URL, and the mounted instance id is older than the instance counter. -/
def Inv (s : AppState) : Prop :=
  (∀ u, s.textureUrl = some u → u < s.nextUrl) ∧
  s.sceneKey = s.textureUrl ∧
  s.sceneInstance < s.nextInstance

/-- A concrete image file (media type image/png as a character list). -/
def imgFileA : JsFile := ⟨['i', 'm', 'a', 'g', 'e', '/', 'p', 'n', 'g']⟩

/-- A second concrete image file (media type image/jpg). -/
def imgFileB : JsFile := ⟨['i', 'm', 'a', 'g', 'e', '/', 'j', 'p', 'g']⟩

/-- A concrete non-image file (media type text/plain). -/
def textFile : JsFile := ⟨['t', 'e', 'x', 't', '/', 'p', 'l', 'a', 'i', 'n']⟩

/-! Helper lemmas: which state fields each operation preserves. -/

@[simp]
lemma reconcileScene_textureUrl (s : AppState) :
    (reconcileScene s).textureUrl = s.textureUrl := by
  unfold reconcileScene; split <;> rfl

@[simp]
lemma reconcileScene_selectedObject (s : AppState) :
    (reconcileScene s).selectedObject = s.selectedObject := by
  unfold reconcileScene; split <;> rfl

@[simp]
lemma reconcileScene_darkMode (s : AppState) :
    (reconcileScene s).darkMode = s.darkMode := by
  unfold reconcileScene; split <;> rfl

@[simp]
lemma reconcileScene_nextUrl (s : AppState) :
    (reconcileScene s).nextUrl = s.nextUrl := by
  unfold reconcileScene; split <;> rfl

lemma reconcileScene_sceneKey_eq (s : AppState) :
    (reconcileScene s).sceneKey = (reconcileScene s).textureUrl := by
  unfold reconcileScene; split
  · assumption
  · rfl

lemma reconcileScene_instance_lt (s : AppState)
    (h : s.sceneInstance < s.nextInstance) :
    (reconcileScene s).sceneInstance < (reconcileScene s).nextInstance := by
  unfold reconcileScene; split
  · exact h
  · exact Nat.lt_succ_self _

@[simp]
lemma handleFileChange_selectedObject (s : AppState)
    (files : Option (List JsFile)) :
    (handleFileChange s files).selectedObject = s.selectedObject := by
  unfold handleFileChange; split
  · split <;> rfl
  · rfl

@[simp]
lemma handleFileChange_darkMode (s : AppState) (files : Option (List JsFile)) :
    (handleFileChange s files).darkMode = s.darkMode := by
  unfold handleFileChange; split
  · split <;> rfl
  · rfl

@[simp]
lemma handleFileChange_sceneKey (s : AppState) (files : Option (List JsFile)) :
    (handleFileChange s files).sceneKey = s.sceneKey := by
  unfold handleFileChange; split
  · split <;> rfl
  · rfl

@[simp]
lemma handleFileChange_sceneInstance (s : AppState)
    (files : Option (List JsFile)) :
    (handleFileChange s files).sceneInstance = s.sceneInstance := by
  unfold handleFileChange; split
  · split <;> rfl
  · rfl

@[simp]
lemma handleFileChange_nextInstance (s : AppState)
    (files : Option (List JsFile)) :
    (handleFileChange s files).nextInstance = s.nextInstance := by
  unfold handleFileChange; split
  · split <;> rfl
  · rfl

@[simp]
lemma applyEvent_sceneInstance (s : AppState) (e : Event) :
    (applyEvent s e).sceneInstance = s.sceneInstance := by
  cases e <;> simp [applyEvent, handleObjectChange, toggleDarkMode]

@[simp]
lemma applyEvent_nextInstance (s : AppState) (e : Event) :
    (applyEvent s e).nextInstance = s.nextInstance := by
  cases e <;> simp [applyEvent, handleObjectChange, toggleDarkMode]

@[simp]
lemma applyEvent_sceneKey (s : AppState) (e : Event) :
    (applyEvent s e).sceneKey = s.sceneKey := by
  cases e <;> simp [applyEvent, handleObjectChange, toggleDarkMode]

@[simp]
lemma step_fileChange_selectedObject (s : AppState)
    (files : Option (List JsFile)) :
    (step s (.fileChange files)).selectedObject = s.selectedObject := by
  simp [step, applyEvent]

@[simp]
lemma step_fileChange_darkMode (s : AppState) (files : Option (List JsFile)) :
    (step s (.fileChange files)).darkMode = s.darkMode := by
  simp [step, applyEvent]

@[simp]
lemma step_objectChange_selectedObject (s : AppState) (v : ObjectType) :
    (step s (.objectChange v)).selectedObject = v := by
  simp [step, applyEvent, handleObjectChange]

@[simp]
lemma step_objectChange_textureUrl (s : AppState) (v : ObjectType) :
    (step s (.objectChange v)).textureUrl = s.textureUrl := by
  simp [step, applyEvent, handleObjectChange]

@[simp]
lemma step_objectChange_darkMode (s : AppState) (v : ObjectType) :
    (step s (.objectChange v)).darkMode = s.darkMode := by
  simp [step, applyEvent, handleObjectChange]

@[simp]
lemma step_toggleDark_selectedObject (s : AppState) :
    (step s .toggleDark).selectedObject = s.selectedObject := by
  simp [step, applyEvent, toggleDarkMode]

@[simp]
lemma step_toggleDark_textureUrl (s : AppState) :
    (step s .toggleDark).textureUrl = s.textureUrl := by
  simp [step, applyEvent, toggleDarkMode]

@[simp]
lemma step_toggleDark_darkMode (s : AppState) :
    (step s .toggleDark).darkMode = !s.darkMode := by
  simp [step, applyEvent, toggleDarkMode]

lemma applyEvent_url_bound (s : AppState) (e : Event)
    (h : ∀ u, s.textureUrl = some u → u < s.nextUrl) :
    ∀ u, (applyEvent s e).textureUrl = some u → u < (applyEvent s e).nextUrl := by
  cases e with
  | fileChange files =>
      intro u
      simp only [applyEvent]
      unfold handleFileChange
      split
      · split
        · intro hu
          simp only [AppState.mk.injEq] at hu ⊢
          simp only [Option.some.injEq] at hu
          omega
        · exact h u
      · exact h u
  | objectChange v => intro u; simpa [applyEvent, handleObjectChange] using h u
  | toggleDark => intro u; simpa [applyEvent, toggleDarkMode] using h u

lemma inv_step (s : AppState) (e : Event) (hInv : Inv s) : Inv (step s e) := by
  obtain ⟨h1, h2, h3⟩ := hInv
  refine ⟨?_, ?_, ?_⟩
  · intro u hu
    have hb := applyEvent_url_bound s e h1 u
    simp only [step, reconcileScene_textureUrl, reconcileScene_nextUrl] at hu ⊢
    exact hb hu
  · exact reconcileScene_sceneKey_eq _
  · exact reconcileScene_instance_lt _ (by simpa using h3)

lemma reachable_inv (s : AppState) (h : Reachable s) : Inv s := by
  induction h with
  | init prefersDark =>
      refine ⟨?_, rfl, Nat.lt_succ_self 0⟩
      intro u hu
      simp [initState] at hu
  | step s e hs he ih => exact inv_step s e ih

@[simp]
lemma step_textureUrl (s : AppState) (e : Event) :
    (step s e).textureUrl = (applyEvent s e).textureUrl := by
  simp [step]

@[simp]
lemma step_nextUrl (s : AppState) (e : Event) :
    (step s e).nextUrl = (applyEvent s e).nextUrl := by
  simp [step]

/-- `handleFileChange` either leaves the state untouched or stores a fresh
object URL and bumps the URL counter. -/
lemma handleFileChange_shape (s : AppState) (files : Option (List JsFile)) :
    handleFileChange s files = s ∨
    handleFileChange s files =
      { s with textureUrl := some s.nextUrl, nextUrl := s.nextUrl + 1 } := by
  unfold handleFileChange; split
  · split
    · right; rfl
    · left; rfl
  · left; rfl

/-- An upload of an image file: the state after the event, written out. The
scene key changed (the stored URL is fresh, hence differs from the key the
mounted scene was created with), so the scene is remounted with a fresh
instance id. -/
lemma step_upload (s : AppState) (files : Option (List JsFile)) (f : JsFile)
    (hInv : Inv s) (hf : files.bind List.head? = some f)
    (him : matchesImage f.mediaType = true) :
    step s (.fileChange files) =
      ⟨some s.nextUrl, s.selectedObject, s.darkMode, s.nextUrl + 1,
       some s.nextUrl, s.nextInstance, s.nextInstance + 1⟩ := by
  obtain ⟨h1, h2, h3⟩ := hInv
  have happ : applyEvent s (.fileChange files) =
      { s with textureUrl := some s.nextUrl, nextUrl := s.nextUrl + 1 } := by
    simp only [applyEvent]
    unfold handleFileChange
    rw [hf]
    simp [him]
  have hkey : s.sceneKey ≠ some s.nextUrl := by
    rw [h2]
    cases hu : s.textureUrl with
    | none => simp
    | some u =>
        have := h1 u hu
        simp only [ne_eq, Option.some.injEq]
        omega
  simp only [step, happ]
  unfold reconcileScene
  rw [if_neg (by simpa using hkey)]

/-- Which texture handles a rendered scene can reference: exactly the loaded
texture when an offered object kind is selected, none otherwise. -/
lemma scene_textures_eq (t : Option Nat) (k : ObjectType) (d : Bool) :
    texturesOf (Scene t k d) =
      if k ∈ selectOptions then t.toList else [] := by
  cases k <;> cases t <;> rfl

/-- Selecting any offered object kind renders exactly the matching presenter. -/
lemma scene_kinds (t : Option Nat) (d : Bool) (k : ObjectType)
    (hk : k ∈ selectOptions) :
    (Scene t k d).map SceneNode.kind = [k] := by
  simp only [selectOptions, List.mem_cons, List.not_mem_nil, or_false] at hk
  rcases hk with rfl | rfl | rfl | rfl <;> rfl

/-- The scene never renders more than one presenter, for any object value of
the union type. -/
lemma scene_length_le_one (t : Option Nat) (k : ObjectType) (d : Bool) :
    (Scene t k d).length ≤ 1 := by
  cases k <;> simp [Scene]

lemma render_step_objectChange (s : AppState) (k : ObjectType) :
    render (step s (.objectChange k)) = Scene s.textureUrl k s.darkMode := by
  simp [render, applyEvent, handleObjectChange]

/-- Along any trace, the URL counter never decreases, and the texture URL is
either still the starting one or some URL the counter created meanwhile. -/
lemma reachFrom_url_mono (base t : AppState) (h : ReachFrom base t) :
    base.nextUrl ≤ t.nextUrl ∧
    (t.textureUrl = base.textureUrl ∨
      ∃ u, t.textureUrl = some u ∧ base.nextUrl ≤ u ∧ u < t.nextUrl) := by
  induction h with
  | refl => exact ⟨Nat.le_refl _, Or.inl rfl⟩
  | step t e ht he ih =>
      obtain ⟨hle, hcase⟩ := ih
      cases e with
      | fileChange files =>
          rcases handleFileChange_shape t files with hsh | hsh
          · constructor
            · simpa [applyEvent, hsh] using hle
            · simpa [applyEvent, hsh] using hcase
          · constructor
            · simp only [step_nextUrl, applyEvent, hsh]; omega
            · right
              refine ⟨t.nextUrl, ?_, hle, ?_⟩
              · simp [applyEvent, hsh]
              · simp [applyEvent, hsh]
      | objectChange v =>
          constructor
          · simpa [applyEvent, handleObjectChange] using hle
          · simpa [applyEvent, handleObjectChange] using hcase
      | toggleDark =>
          constructor
          · simpa [applyEvent, toggleDarkMode] using hle
          · simpa [applyEvent, toggleDarkMode] using hcase

/-- Toggling the theme flips every flat-designated color of every presenter,
whatever texture is loaded. -/
lemma scene_flat_tones_toggle (t : Option Nat) (k : ObjectType) (d : Bool) :
    allToneChanged (flatColors ((Scene t k d).map SceneNode.materials).flatten)
      (flatColors ((Scene t k (!d)).map SceneNode.materials).flatten) = true := by
  cases k <;> cases d <;> cases t <;> rfl

/-- C1: for every object kind offered by the selector (box, cylinder, mug,
shirt), selecting that kind renders exactly the one matching presenter, any
previously mounted presenter of a different kind is no longer rendered, and in
every reachable state at most one presenter is mounted. -/
theorem scene_mounts_unique_presenter :
    (∀ (s : AppState), Reachable s → ∀ k, k ∈ selectOptions →
      ((render (step s (.objectChange k))).map SceneNode.kind = [k] ∧
        ∀ n, n ∈ render s → n.kind ≠ k →
          n.kind ∉ (render (step s (.objectChange k))).map SceneNode.kind)) ∧
    (∀ s : AppState, Reachable s → (render s).length ≤ 1) := by
  constructor
  · intro s hs k hk
    rw [render_step_objectChange, scene_kinds _ _ _ hk]
    refine ⟨rfl, ?_⟩
    intro n hn hne
    simp [hne]
  · intro s hs
    exact scene_length_le_one _ _ _

/-- Witness for C1 at the initial state and the cylinder option. -/
theorem scene_mounts_unique_presenter_witness :
    ((render (step (initState false)
        (.objectChange ObjectType.cylinder))).map SceneNode.kind =
      [ObjectType.cylinder]) ∧
    (render (initState false)).length ≤ 1 :=
  ⟨(scene_mounts_unique_presenter.1 (initState false) (Reachable.init false)
      ObjectType.cylinder (by decide)).1,
   scene_mounts_unique_presenter.2 (initState false) (Reachable.init false)⟩

/-- C2: with box selected, two sequential image uploads store two distinct
fresh texture references; the second upload remounts the scene (a fresh
instance id), the re-rendered scene is the box presenter with the second
texture on its textured face, and the first upload's texture handle is not
referenced by the mounted scene then or in any later reachable state. -/
theorem upload_remounts_scene (s : AppState) (f g : JsFile)
    (hs : Reachable s) (hbox : s.selectedObject = ObjectType.box)
    (hf : matchesImage f.mediaType = true)
    (hg : matchesImage g.mediaType = true) :
    ∃ u1 u2 : Nat,
      (step s (.fileChange (some [f]))).textureUrl = some u1 ∧
      (step (step s (.fileChange (some [f])))
        (.fileChange (some [g]))).textureUrl = some u2 ∧
      u1 ≠ u2 ∧
      (step (step s (.fileChange (some [f])))
          (.fileChange (some [g]))).sceneInstance ≠
        (step s (.fileChange (some [f]))).sceneInstance ∧
      render (step (step s (.fileChange (some [f]))) (.fileChange (some [g]))) =
        [⟨ObjectType.box, Box (some u2) s.darkMode⟩] ∧
      (Box (some u2) s.darkMode)[4]? = some ⟨some (some u2), none⟩ ∧
      texturesOf (render (step (step s (.fileChange (some [f])))
        (.fileChange (some [g])))) = [u2] ∧
      u1 ∉ texturesOf (render (step (step s (.fileChange (some [f])))
        (.fileChange (some [g])))) ∧
      ∀ tl, ReachFrom (step (step s (.fileChange (some [f])))
          (.fileChange (some [g]))) tl →
        u1 ∉ texturesOf (render tl) := by
  have hInv : Inv s := reachable_inv s hs
  have h1 : step s (.fileChange (some [f])) =
      ⟨some s.nextUrl, s.selectedObject, s.darkMode, s.nextUrl + 1,
       some s.nextUrl, s.nextInstance, s.nextInstance + 1⟩ :=
    step_upload s (some [f]) f hInv rfl hf
  have hr1 : Reachable (step s (.fileChange (some [f]))) :=
    Reachable.step _ _ hs (ValidEvent.fileChange _)
  have hInv1 : Inv (step s (.fileChange (some [f]))) := reachable_inv _ hr1
  have h2 : step (step s (.fileChange (some [f]))) (.fileChange (some [g])) =
      ⟨some (s.nextUrl + 1), s.selectedObject, s.darkMode, s.nextUrl + 2,
       some (s.nextUrl + 1), s.nextInstance + 1, s.nextInstance + 2⟩ := by
    rw [h1] at hInv1 ⊢
    exact step_upload _ (some [g]) g hInv1 rfl hg
  refine ⟨s.nextUrl, s.nextUrl + 1, ?_, ?_, by omega, ?_, ?_, rfl, ?_, ?_, ?_⟩
  · rw [h1]
  · rw [h2]
  · rw [h2, h1]
    simp only [ne_eq]
    omega
  · rw [h2]
    show Scene (some (s.nextUrl + 1)) s.selectedObject s.darkMode = _
    rw [hbox]
    rfl
  · rw [h2]
    show texturesOf (Scene (some (s.nextUrl + 1))
      s.selectedObject s.darkMode) = _
    rw [hbox]
    rfl
  · rw [h2]
    show s.nextUrl ∉ texturesOf (Scene (some (s.nextUrl + 1))
      s.selectedObject s.darkMode)
    rw [hbox, scene_textures_eq]
    simp only [selectOptions]
    intro hmem
    simp at hmem
  · rw [h2]
    intro tl hreach hmem
    obtain ⟨hle, hcase⟩ := reachFrom_url_mono _ tl hreach
    simp only [render] at hmem
    rw [scene_textures_eq] at hmem
    split at hmem
    · rcases hu : tl.textureUrl with _ | u
      · rw [hu] at hmem
        simp at hmem
      · rw [hu] at hmem
        simp only [Option.toList_some, List.mem_singleton] at hmem
        subst hmem
        rcases hcase with hsame | ⟨v, hv, hv1, hv2⟩
        · rw [hu] at hsame
          simp only [Option.some.injEq] at hsame
          omega
        · rw [hu] at hv
          simp only [Option.some.injEq] at hv
          subst hv
          simp only at hv1
          omega
    · simp at hmem

/-- Witness for C2 at the initial state with two concrete image uploads. -/
theorem upload_remounts_scene_witness :
    ∃ u1 u2 : Nat,
      (step (initState false) (.fileChange (some [imgFileA]))).textureUrl =
        some u1 ∧
      (step (step (initState false) (.fileChange (some [imgFileA])))
        (.fileChange (some [imgFileB]))).textureUrl = some u2 ∧
      u1 ≠ u2 ∧
      (step (step (initState false) (.fileChange (some [imgFileA])))
          (.fileChange (some [imgFileB]))).sceneInstance ≠
        (step (initState false) (.fileChange (some [imgFileA]))).sceneInstance ∧
      render (step (step (initState false) (.fileChange (some [imgFileA])))
          (.fileChange (some [imgFileB]))) =
        [⟨ObjectType.box, Box (some u2) (initState false).darkMode⟩] ∧
      (Box (some u2) (initState false).darkMode)[4]? =
        some ⟨some (some u2), none⟩ ∧
      texturesOf (render (step (step (initState false)
        (.fileChange (some [imgFileA]))) (.fileChange (some [imgFileB])))) =
        [u2] ∧
      u1 ∉ texturesOf (render (step (step (initState false)
        (.fileChange (some [imgFileA]))) (.fileChange (some [imgFileB])))) ∧
      ∀ tl, ReachFrom (step (step (initState false)
          (.fileChange (some [imgFileA]))) (.fileChange (some [imgFileB]))) tl →
        u1 ∉ texturesOf (render tl) :=
  upload_remounts_scene (initState false) imgFileA imgFileB
    (Reachable.init false) rfl (by decide) (by decide)

/-- C3: for every file-change event, when a first file is present and its
media type matches the image pattern the texture source is replaced by a fresh
reference; when the file is absent or its media type does not match, the
handler returns with the whole state unchanged (so nothing is surfaced). -/
theorem handleFileChange_spec (s : AppState) (files : Option (List JsFile))
    (hs : Reachable s) :
    (∀ f, files.bind List.head? = some f →
      ((matchesImage f.mediaType = true →
          (handleFileChange s files).textureUrl = some s.nextUrl ∧
          (handleFileChange s files).textureUrl ≠ s.textureUrl) ∧
        (matchesImage f.mediaType = false → handleFileChange s files = s))) ∧
    (files.bind List.head? = none → handleFileChange s files = s) := by
  have h1 := (reachable_inv s hs).1
  constructor
  · intro f hf
    constructor
    · intro him
      have heq : handleFileChange s files =
          { s with textureUrl := some s.nextUrl, nextUrl := s.nextUrl + 1 } := by
        unfold handleFileChange
        rw [hf]
        simp [him]
      rw [heq]
      refine ⟨rfl, ?_⟩
      cases hu : s.textureUrl with
      | none => simp
      | some u =>
          have := h1 u hu
          simp only [ne_eq, Option.some.injEq]
          omega
    · intro him
      unfold handleFileChange
      rw [hf]
      simp [him]
  · intro hnone
    unfold handleFileChange
    rw [hnone]

/-- Witness for C3: an image upload, a non-image upload, and an empty event at
the initial state. -/
theorem handleFileChange_spec_witness :
    ((handleFileChange (initState false) (some [imgFileA])).textureUrl =
        some (initState false).nextUrl ∧
      (handleFileChange (initState false) (some [imgFileA])).textureUrl ≠
        (initState false).textureUrl) ∧
    handleFileChange (initState false) (some [textFile]) = initState false ∧
    handleFileChange (initState false) none = initState false :=
  ⟨((handleFileChange_spec (initState false) (some [imgFileA])
      (Reachable.init false)).1 imgFileA rfl).1 (by decide),
   ((handleFileChange_spec (initState false) (some [textFile])
      (Reachable.init false)).1 textFile rfl).2 (by decide),
   (handleFileChange_spec (initState false) none (Reachable.init false)).2 rfl⟩

/-- C4: with no texture source, the scene references no texture at all, for
every object kind and both theme values. -/
theorem no_texture_no_binding :
    ∀ (k : ObjectType) (d : Bool), texturesOf (Scene none k d) = [] := by
  intro k d
  rw [scene_textures_eq]
  split <;> rfl

/-- C5: toggling the theme flag leaves the selected object and the texture
source unchanged, and changes the flat color of every region of the mounted
presenter that is not designated for the texture. -/
theorem toggle_changes_flat_tones :
    ∀ s : AppState,
      (step s .toggleDark).selectedObject = s.selectedObject ∧
      (step s .toggleDark).textureUrl = s.textureUrl ∧
      allToneChanged
        (flatColors ((render s).map SceneNode.materials).flatten)
        (flatColors ((render (step s .toggleDark)).map
          SceneNode.materials).flatten) = true := by
  intro s
  refine ⟨by simp, by simp [applyEvent, toggleDarkMode], ?_⟩
  have hr : render (step s .toggleDark) =
      Scene s.textureUrl s.selectedObject (!s.darkMode) := by
    simp [render, applyEvent, toggleDarkMode]
  rw [hr]
  exact scene_flat_tones_toggle s.textureUrl s.selectedObject s.darkMode

/-- C6: the box presenter binds the supplied texture to exactly one face (the
fifth material slot, the front face) and each of the other five faces to one
theme-dependent flat color, which is the light tone #e2e8f0 in light mode and
the different tone white in dark mode. -/
theorem box_texture_mapping :
    ∀ (t : Option Texture) (d : Bool),
      ((Box t d).filter fun m => m.mapAttr.isSome) = [⟨some t, none⟩] ∧
      (Box t d)[4]? = some ⟨some t, none⟩ ∧
      ((Box t d).filter fun m => m.mapAttr.isNone) =
        List.replicate 5
          ⟨none, some (if d then Color.white else Color.hexE2E8F0)⟩ ∧
      Color.isLightTone Color.hexE2E8F0 = true ∧
      Color.white ≠ Color.hexE2E8F0 := by
  intro t d
  cases d <;> exact ⟨rfl, rfl, rfl, rfl, by decide⟩

/-- C7: the shirt presenter binds the supplied texture only to its first
sub-mesh (the front panel) and every other sub-mesh to the theme-dependent
tint, dark #222222 in dark mode and light #ffffff in light mode; and starting
from the initial state (box, light, no upload), switching to shirt mounts the
shirt presenter with an untextured front panel and all other sub-meshes in the
light tint. -/
theorem shirt_texture_mapping :
    ∀ (t : Option Texture) (d : Bool),
      ((Shirt t d).filter fun m => m.mapAttr.isSome) = [⟨some t, none⟩] ∧
      (Shirt t d)[0]? = some ⟨some t, none⟩ ∧
      (Shirt t d).drop 1 =
        List.replicate 3
          ⟨none, some (if d then Color.hex222222 else Color.hexFFFFFF)⟩ ∧
      Color.isLightTone Color.hexFFFFFF = true ∧
      Color.isLightTone Color.hex222222 = false ∧
      render (step (initState false) (.objectChange ObjectType.shirt)) =
        [⟨ObjectType.shirt,
          [⟨some none, none⟩,
           ⟨none, some Color.hexFFFFFF⟩,
           ⟨none, some Color.hexFFFFFF⟩,
           ⟨none, some Color.hexFFFFFF⟩]⟩] := by
  intro t d
  cases d <;> exact ⟨rfl, rfl, rfl, rfl, rfl, rfl⟩

/-- C8: the selector's option set is exactly box, cylinder, mug, shirt: the
initial object kind is box, every reachable state's object kind lies in the
option set, and every option value is the object kind of some reachable
state. -/
theorem objectKind_closed_set :
    (∀ prefersDark, (initState prefersDark).selectedObject = ObjectType.box) ∧
    (∀ s : AppState, Reachable s → s.selectedObject ∈ selectOptions) ∧
    (∀ k, k ∈ selectOptions →
      ∃ s : AppState, Reachable s ∧ s.selectedObject = k) := by
  refine ⟨fun _ => rfl, ?_, ?_⟩
  · intro s hs
    induction hs with
    | init prefersDark => simp [initState, selectOptions]
    | step s e hs he ih =>
        cases he with
        | fileChange files => simpa using ih
        | objectChange v hv => simpa using hv
        | toggleDark => simpa using ih
  · intro k hk
    exact ⟨step (initState false) (.objectChange k),
      Reachable.step _ _ (Reachable.init false)
        (ValidEvent.objectChange k hk),
      by simp⟩

/-- Witness for C8 at a concrete reachable state and the mug option. -/
theorem objectKind_closed_set_witness :
    ((initState true).selectedObject ∈ selectOptions) ∧
    ∃ s : AppState, Reachable s ∧ s.selectedObject = ObjectType.mug :=
  ⟨objectKind_closed_set.2.1 (initState true) (Reachable.init true),
   objectKind_closed_set.2.2 ObjectType.mug (by decide)⟩

/-- C9: the union type also admits the sphere value, the selector never offers
it, and for every texture and theme the scene renders zero presenters for it,
so the scene does not render exactly one presenter there. -/
theorem sphere_renders_empty :
    ∀ (t : Option Nat) (d : Bool),
      Scene t ObjectType.sphere d = [] ∧
      (Scene t ObjectType.sphere d).length ≠ 1 ∧
      ObjectType.sphere ∉ selectOptions := by
  intro t d
  exact ⟨rfl, (by decide : (0 : Nat) ≠ 1), by decide⟩

/-- C10: the texture-designated material of the box front face, the cylinder
lateral surface and the shirt front panel carries no color attribute under
either theme (it keeps the fixed default), while every flat-designated region
of those presenters changes tone with the theme. -/
theorem textured_slots_theme_independent :
    ∀ (t : Option Texture) (d : Bool),
      ((Box t d)[4]?).map Material.colorAttr = some none ∧
      ((Cylinder t d)[0]?).map Material.colorAttr = some none ∧
      ((Shirt t d)[0]?).map Material.colorAttr = some none ∧
      (Box t d)[4]? = (Box t (!d))[4]? ∧
      (Cylinder t d)[0]? = (Cylinder t (!d))[0]? ∧
      (Shirt t d)[0]? = (Shirt t (!d))[0]? ∧
      allToneChanged (flatColors (Box t d)) (flatColors (Box t (!d))) = true ∧
      allToneChanged (flatColors (Cylinder t d))
        (flatColors (Cylinder t (!d))) = true ∧
      allToneChanged (flatColors (Shirt t d))
        (flatColors (Shirt t (!d))) = true := by
  intro t d
  cases d <;> exact ⟨rfl, rfl, rfl, rfl, rfl, rfl, rfl, rfl, rfl⟩

end POC
